import Mathlib

/-!
Verification of the icon-evolution pipeline of `ai_icon_generator`.

The development shallowly embeds the parts of the TypeScript source that the
specification talks about:
* `api/utils/validators.ts` — input sanitization and payload validation,
* `api/evolution-suggestions.ts` — trend filtering and the suggestion handler,
* `src/lib/promptBuilder.ts` — prompt synthesis,
* `src/lib/renderingStyles.ts` — the rendering-style registry,
* `src/hooks/useAnalysis.ts` — the staged pipeline state machine.

JavaScript runtime values inspected by the dynamic validators are modelled by
the inductive type `JsValue`; JavaScript `String.prototype.trim` is modelled
by `jsTrim` (drop whitespace on both ends); the `||` falsiness defaulting on
strings is modelled by `orDefault`.
-/

/-- Model of JavaScript `String.prototype.trim`: drop whitespace characters
from both ends of the string. -/
def jsTrim (s : String) : String :=
  String.mk (((s.data.dropWhile Char.isWhitespace).reverse.dropWhile Char.isWhitespace).reverse)

/-- Model of JavaScript `String.prototype.toLowerCase`: lower-case every
character. -/
def jsToLower (s : String) : String :=
  String.mk (s.data.map Char.toLower)

/-- Model of the JavaScript idiom `s || d` on an optional string: the default
`d` is used when the value is missing or the empty string (falsy). -/
def orDefault (s : Option String) (d : String) : String :=
  match s with
  | none => d
  | some v => if v = "" then d else v

namespace Validators

/-- JavaScript runtime values, as far as the validators of
`api/utils/validators.ts` inspect them. An absent object field is modelled by
`Option.none` from `getField` (JavaScript `undefined`). -/
inductive JsValue where
  | vNull : JsValue
  | vBool : Bool → JsValue
  | vNum : Int → JsValue
  | vStr : String → JsValue
  | vArr : List JsValue → JsValue
  | vObj : List (String × JsValue) → JsValue

/-- Property access `o[k]` on a JavaScript value: only plain objects carry the
fields the validators read; everything else yields `undefined` (`none`). -/
def getField : JsValue → String → Option JsValue
  | JsValue.vObj fields, key => fields.lookup key
  | _, _ => none

/-- Model of the falsy-or-not-an-object guard used by every object validator
of the source: `vNull` is falsy, while arrays and objects pass the JavaScript
object typeof test. -/
def isObjectLike : JsValue → Bool
  | JsValue.vArr _ => true
  | JsValue.vObj _ => true
  | _ => false

/-- Model of the JavaScript string typeof test on an (optional) field
value. -/
def isStringField : Option JsValue → Bool
  | some (JsValue.vStr _) => true
  | _ => false

/-- Embedding of `Array.isArray(v)` on an (optional) field value. -/
def isArrayField : Option JsValue → Bool
  | some (JsValue.vArr _) => true
  | _ => false

/-- Model of the string-or-non-null-object test: the `psychographicProfile`
gate of `validateAnalysis`. Arrays also pass the JavaScript object typeof
test and are not null. -/
def isStringOrNonNullObject : Option JsValue → Bool
  | some (JsValue.vStr _) => true
  | some (JsValue.vObj _) => true
  | some (JsValue.vArr _) => true
  | _ => false

/-- Embedding of `MAX_INPUT_LENGTH` from `api/utils/validators.ts`. -/
def MAX_INPUT_LENGTH : Nat := 5000

/-- Embedding of `MAX_SCREENSHOTS` from `api/utils/validators.ts`. -/
def MAX_SCREENSHOTS : Nat := 10

/-- Embedding of `ALLOWED_IMAGE_TYPES` from `api/utils/validators.ts`. -/
def ALLOWED_IMAGE_TYPES : List String :=
  ["image/png", "image/jpeg", "image/webp", "image/gif"]

/-- Embedding of `sanitizeInput` from `api/utils/validators.ts` (the copy in
`api/evolution-suggestions.ts` is textually identical, only its default
`maxLength` differs): a missing or empty input yields `""`; otherwise trim,
truncate to `maxLength`, and remove every `<` and `>` character. Non-string
inputs (JavaScript `undefined`/`null`) are modelled by `Option.none`. -/
def sanitizeInput (input : Option String) (maxLength : Nat) : String :=
  match input with
  | none => ""
  | some s =>
    if s = "" then ""
    else String.mk (((jsTrim s).data.take maxLength).filter (fun c => c != '<' && c != '>'))

/-- Model of the string-typed allow-listed mime check of the source on an
(optional) field value. -/
def isAllowedMimeField : Option JsValue → Bool
  | some (JsValue.vStr m) => ALLOWED_IMAGE_TYPES.contains m
  | _ => false

/-- Embedding of `validateScreenshot` from `api/utils/validators.ts`: an object with a
string `data` field and a string `mimeType` field drawn from the allow-list. -/
def validateScreenshot (screenshot : JsValue) : Bool :=
  if !(isObjectLike screenshot) then false
  else
    isStringField (getField screenshot "data") &&
    isAllowedMimeField (getField screenshot "mimeType")

/-- Embedding of `filterValidScreenshots` from `api/utils/validators.ts`: take the first
`maxCount` entries and keep those passing `validateScreenshot`. -/
def filterValidScreenshots (screenshots : List JsValue) (maxCount : Nat) : List JsValue :=
  (screenshots.take maxCount).filter validateScreenshot

/-- Embedding of `validateAnalysis` from `api/utils/validators.ts`: requires string
`vertical` and `demographics`, array `features` and `competitors`, and a
`psychographicProfile` that is a string or a non-null object. -/
def validateAnalysis (analysis : JsValue) : Bool :=
  if !(isObjectLike analysis) then false
  else
    isStringField (getField analysis "vertical") &&
    isStringField (getField analysis "demographics") &&
    isArrayField (getField analysis "features") &&
    isArrayField (getField analysis "competitors") &&
    isStringOrNonNullObject (getField analysis "psychographicProfile")

end Validators

namespace EvolutionSuggestions

/-- Embedding of `MAX_STRING_LENGTH` from `api/evolution-suggestions.ts`. -/
def MAX_STRING_LENGTH : Nat := 500

/-- The local `sanitizeInput` of `api/evolution-suggestions.ts` applied at its
default `maxLength` (`MAX_STRING_LENGTH`), as every call in that file does. -/
def sanitize (s : String) : String :=
  Validators.sanitizeInput (some s) MAX_STRING_LENGTH

/-- Embedding of `IconAnalysis` from `api/evolution-suggestions.ts` / `src/types/index.ts`. -/
structure IconAnalysis where
  coreSubject : String
  appFunction : String
  currentStyle : String
  mustPreserve : List String
  deriving Repr, DecidableEq

/-- Embedding of `EntertainmentTrendItem` from `api/evolution-suggestions.ts`. -/
structure EntertainmentTrendItem where
  title : String
  relevance : String
  visualElements : List String
  deriving Repr, DecidableEq

/-- Embedding of `AestheticTrend` from `api/evolution-suggestions.ts`. -/
structure AestheticTrend where
  name : String
  description : String
  examples : List String
  deriving Repr, DecidableEq

/-- Embedding of `EntertainmentTrends` from `api/evolution-suggestions.ts`. -/
structure EntertainmentTrends where
  movies : List EntertainmentTrendItem
  games : List EntertainmentTrendItem
  anime : List EntertainmentTrendItem
  aesthetics : List AestheticTrend
  deriving Repr, DecidableEq

/-- The lower-cased selection set `selectedSet` built by
`filterTrendsBySelection` (JavaScript `Set` membership coincides with list
membership after `toLowerCase`). -/
def selectedSetOf (selectedTrends : List String) : List String :=
  selectedTrends.map jsToLower

/-- Candidate identifier `movie-{title}` (lower-cased) for a movie item. -/
def trendIdMovie (m : EntertainmentTrendItem) : String :=
  jsToLower ("movie-" ++ m.title)

/-- Candidate identifier `game-{title}` (lower-cased) for a game item. -/
def trendIdGame (g : EntertainmentTrendItem) : String :=
  jsToLower ("game-" ++ g.title)

/-- Candidate identifier `anime-{title}` (lower-cased) for an anime item. -/
def trendIdAnime (a : EntertainmentTrendItem) : String :=
  jsToLower ("anime-" ++ a.title)

/-- Candidate identifier `aesthetic-{name}` (lower-cased) for an aesthetic. -/
def trendIdAesthetic (a : AestheticTrend) : String :=
  jsToLower ("aesthetic-" ++ a.name)

/-- Embedding of `selectedMovies` of `filterTrendsBySelection`. -/
def selectedMovies (trends : EntertainmentTrends) (selectedTrends : List String) :
    List EntertainmentTrendItem :=
  trends.movies.filter (fun m => (selectedSetOf selectedTrends).contains (trendIdMovie m))

/-- Embedding of `selectedGames` of `filterTrendsBySelection`. -/
def selectedGames (trends : EntertainmentTrends) (selectedTrends : List String) :
    List EntertainmentTrendItem :=
  trends.games.filter (fun g => (selectedSetOf selectedTrends).contains (trendIdGame g))

/-- Embedding of `selectedAnime` of `filterTrendsBySelection`. -/
def selectedAnime (trends : EntertainmentTrends) (selectedTrends : List String) :
    List EntertainmentTrendItem :=
  trends.anime.filter (fun a => (selectedSetOf selectedTrends).contains (trendIdAnime a))

/-- Embedding of `selectedAesthetics` of `filterTrendsBySelection`. -/
def selectedAesthetics (trends : EntertainmentTrends) (selectedTrends : List String) :
    List AestheticTrend :=
  trends.aesthetics.filter (fun a => (selectedSetOf selectedTrends).contains (trendIdAesthetic a))

/-- One bullet line of a movie/game/anime block. -/
def trendItemLine (m : EntertainmentTrendItem) : String :=
  "- " ++ sanitize m.title ++ ": " ++ sanitize m.relevance ++
    "\n  視覺元素: " ++ String.intercalate ", " (m.visualElements.map sanitize)

/-- One bullet line of an aesthetics block. -/
def aestheticLine (a : AestheticTrend) : String :=
  "- " ++ sanitize a.name ++ ": " ++ sanitize a.description ++
    "\n  例子: " ++ String.intercalate ", " (a.examples.map sanitize)

/-- The titled movies block (`## 影視趨勢`). -/
def movieSection (items : List EntertainmentTrendItem) : String :=
  "## 影視趨勢\n" ++ String.intercalate "\n" (items.map trendItemLine)

/-- The titled games block (`## 遊戲趨勢`). -/
def gameSection (items : List EntertainmentTrendItem) : String :=
  "## 遊戲趨勢\n" ++ String.intercalate "\n" (items.map trendItemLine)

/-- The titled anime block (`## 動畫趨勢`). -/
def animeSection (items : List EntertainmentTrendItem) : String :=
  "## 動畫趨勢\n" ++ String.intercalate "\n" (items.map trendItemLine)

/-- The titled aesthetics block (`## 美學潮流`). -/
def aestheticSection (items : List AestheticTrend) : String :=
  "## 美學潮流\n" ++ String.intercalate "\n" (items.map aestheticLine)

/-- The `sections` array of `filterTrendsBySelection`: one titled block per
category with at least one matching item, pushed in the fixed source order
movies, games, anime, aesthetics. -/
def sectionsOf (trends : EntertainmentTrends) (selectedTrends : List String) : List String :=
  (if (selectedMovies trends selectedTrends).length > 0
    then [movieSection (selectedMovies trends selectedTrends)] else []) ++
  (if (selectedGames trends selectedTrends).length > 0
    then [gameSection (selectedGames trends selectedTrends)] else []) ++
  (if (selectedAnime trends selectedTrends).length > 0
    then [animeSection (selectedAnime trends selectedTrends)] else []) ++
  (if (selectedAesthetics trends selectedTrends).length > 0
    then [aestheticSection (selectedAesthetics trends selectedTrends)] else [])

/-- The `selectedNames` array of `filterTrendsBySelection`: display names are
pushed while each category is filtered, so they accumulate in the same fixed
category order. -/
def selectedNamesOf (trends : EntertainmentTrends) (selectedTrends : List String) : List String :=
  (selectedMovies trends selectedTrends).map (fun m => m.title) ++
  (selectedGames trends selectedTrends).map (fun g => g.title) ++
  (selectedAnime trends selectedTrends).map (fun a => a.title) ++
  (selectedAesthetics trends selectedTrends).map (fun a => a.name)

/-- Result record of `filterTrendsBySelection`. -/
structure FilterResult where
  filteredContext : String
  selectedNames : List String
  deriving Repr, DecidableEq

/-- Embedding of `filterTrendsBySelection` from `api/evolution-suggestions.ts`. -/
def filterTrendsBySelection (trends : EntertainmentTrends) (selectedTrends : List String) :
    FilterResult :=
  if selectedTrends.length = 0 then ⟨"", []⟩
  else ⟨String.intercalate "\n\n" (sectionsOf trends selectedTrends),
        selectedNamesOf trends selectedTrends⟩

/-- The trend-guided instruction template of the handler (taken when
`hasSelection` holds), assembled from the sanitized analysis fields and the
filtered context. -/
def trendGuidedPrompt (coreSubject appFunction currentStyle : String)
    (mustPreserve : List String) (filteredContext : String) : String :=
  "你是一位創意總監與 Icon 設計專家。\n\n基於用戶選擇的娛樂趨勢，為這個 App Icon 提出一個統一的演化方向建議。\n\n## 原 Icon 分析\n- 核心主體：" ++
  coreSubject ++ "\n- App 功能：" ++ appFunction ++ "\n- 現有風格：" ++ currentStyle ++
  "\n- 必須保留的元素：" ++ String.intercalate ", " mustPreserve ++
  "\n\n## 用戶選擇的趨勢\n" ++ filteredContext ++
  "\n\n請提出一個整合性的演化建議，將所有選定趨勢的視覺元素融合成一個統一且協調的設計方向。\n\n要求：\n1. 不要分開描述各個趨勢的影響，而是將它們融合成一個連貫的演化概念\n2. 具體描述視覺效果（色彩、光影、質感、元素等）\n3. 解釋這個方向如何保留 Icon 的核心識別同時帶來新鮮感\n4. 提供 3-5 個關鍵視覺元素作為設計指引\n\n## 功能守護提醒\n最後，請提醒用戶在演化過程中應該保留哪些元素，以確保：\n1. 用戶仍能認出這是同一個 App\n2. Icon 仍能清楚傳達 App 的功能\n\n請返回 JSON 格式的建議。"

/-- The generic quality-uplift instruction template of the handler (taken when
no trend was matched). -/
def genericUpliftPrompt (coreSubject appFunction currentStyle : String)
    (mustPreserve : List String) : String :=
  "你是一位創意總監與 Icon 設計專家。\n\n用戶尚未選擇任何特定趨勢，請根據 Icon 的特性提供一個通用的品質提升建議。\n\n## 原 Icon 分析\n- 核心主體：" ++
  coreSubject ++ "\n- App 功能：" ++ appFunction ++ "\n- 現有風格：" ++ currentStyle ++
  "\n- 必須保留的元素：" ++ String.intercalate ", " mustPreserve ++
  "\n\n請提出一個品質提升的建議，專注於：\n1. 提升視覺精緻度和現代感\n2. 優化光影和材質表現\n3. 增強色彩層次和對比\n4. 保持核心識別元素\n\n## 功能守護提醒\n最後，請提醒用戶在演化過程中應該保留哪些元素，以確保：\n1. 用戶仍能認出這是同一個 App\n2. Icon 仍能清楚傳達 App 的功能\n\n請返回 JSON 格式的建議。"

/-- The prompt chosen by the handler of `api/evolution-suggestions.ts` once
validation has passed: sanitize the analysis fields, filter the trends, and
branch on `hasSelection = selectedNames.length > 0` between the two
templates. -/
def handlerPrompt (iconAnalysis : IconAnalysis) (entertainmentTrends : EntertainmentTrends)
    (selectedTrends : List String) : String :=
  let coreSubject := sanitize iconAnalysis.coreSubject
  let appFunction := sanitize iconAnalysis.appFunction
  let currentStyle := sanitize iconAnalysis.currentStyle
  let mustPreserve := (iconAnalysis.mustPreserve.map sanitize).filter (fun s => s != "")
  let r := filterTrendsBySelection entertainmentTrends selectedTrends
  let hasSelection := r.selectedNames.length > 0
  if hasSelection then
    trendGuidedPrompt coreSubject appFunction currentStyle mustPreserve r.filteredContext
  else
    genericUpliftPrompt coreSubject appFunction currentStyle mustPreserve

end EvolutionSuggestions

namespace RenderingStyles

/-- Embedding of `RenderingStyle` from `src/types/index.ts`. The `id` is kept as a string:
`getRenderingStylePrompt` must behave on unknown identifiers, so the open
string type is the faithful runtime model of the union type. -/
structure RenderingStyle where
  id : String
  name : String
  description : String
  promptFragment : String
  deriving Repr, DecidableEq

/-- Registry entry `match_seed` (its static fragment is empty: the real
fragment is produced dynamically by `getRenderingStylePrompt`). -/
def matchSeedStyle : RenderingStyle :=
  ⟨"match_seed", "Match Original", "Preserve the visual style of your seed icon", ""⟩

/-- Registry entry `3d_render`, also the fallback preset. -/
def threeDRenderStyle : RenderingStyle :=
  ⟨"3d_render", "3D Render", "High-fidelity 3D with soft global illumination",
    "- App Store icon 格式\n- 高保真 3D 渲染\n- 柔和的全局光照\n- 鮮豔但專業的配色\n- 乾淨的邊緣，居中構圖\n- 中性或微漸層背景"⟩

/-- Registry entry `flat`. -/
def flatStyle : RenderingStyle :=
  ⟨"flat", "Flat Design", "Clean, minimal with solid colors, no shadows",
    "- App Store icon 格式\n- 扁平 2D 設計風格\n- 純色塊，無漸層或陰影\n- 簡潔幾何形狀\n- 高對比配色\n- 乾淨的邊緣，居中構圖\n- 純色或簡單背景"⟩

/-- Registry entry `minimalist`. -/
def minimalistStyle : RenderingStyle :=
  ⟨"minimalist", "Minimalist", "Ultra-simplified, essential elements only",
    "- App Store icon 格式\n- 極簡風格\n- 僅保留最核心的視覺元素\n- 大量留白\n- 單色或雙色配色\n- 簡化的線條和形狀\n- 乾淨純色背景"⟩

/-- Registry entry `glassmorphism`. -/
def glassmorphismStyle : RenderingStyle :=
  ⟨"glassmorphism", "Glassmorphism", "Frosted glass effect with blur and transparency",
    "- App Store icon 格式\n- 玻璃擬態風格 (Glassmorphism)\n- 毛玻璃效果與模糊\n- 半透明層次\n- 柔和的光線折射\n- 精緻的邊框高光\n- 漸層或抽象背景"⟩

/-- Registry entry `neo_brutalism`. -/
def neoBrutalismStyle : RenderingStyle :=
  ⟨"neo_brutalism", "Neo-Brutalism", "Bold colors, thick black outlines, raw aesthetic",
    "- App Store icon 格式\n- 新粗野主義風格 (Neo-Brutalism)\n- 粗黑色輪廓線\n- 大膽鮮豔的純色\n- 明顯的陰影偏移\n- 故意的「未完成」美感\n- 高對比色塊背景"⟩

/-- Registry entry `claymorphism`. -/
def claymorphismStyle : RenderingStyle :=
  ⟨"claymorphism", "Claymorphism", "Soft clay-like 3D with rounded edges",
    "- App Store icon 格式\n- 黏土擬態風格 (Claymorphism)\n- 柔軟的黏土質感\n- 圓潤的邊緣和角落\n- 柔和的內外陰影\n- 溫暖的粉彩配色\n- 立體但不銳利\n- 柔和漸層背景"⟩

/-- Registry entry `pixel_art`. -/
def pixelArtStyle : RenderingStyle :=
  ⟨"pixel_art", "Pixel Art", "Retro 8-bit/16-bit pixel aesthetic",
    "- App Store icon 格式\n- 像素藝術風格\n- 8-bit 或 16-bit 復古美學\n- 清晰可見的像素邊緣\n- 有限的調色盤\n- 懷舊遊戲風格\n- 純色或簡單像素背景"⟩

/-- Registry entry `isometric`. -/
def isometricStyle : RenderingStyle :=
  ⟨"isometric", "Isometric 3D", "3D isometric projection view",
    "- App Store icon 格式\n- 等距立體風格 (Isometric)\n- 等角投影視角\n- 精確的 30 度角度\n- 清晰的立體層次\n- 乾淨的幾何線條\n- 鮮豔但協調的配色\n- 中性或漸層背景"⟩

/-- Embedding of `RENDERING_STYLES` from `src/lib/renderingStyles.ts`, as a keyed lookup
list (the TypeScript `Record` keyed by style id). -/
def RENDERING_STYLES : List (String × RenderingStyle) :=
  [("match_seed", matchSeedStyle), ("3d_render", threeDRenderStyle), ("flat", flatStyle),
   ("minimalist", minimalistStyle), ("glassmorphism", glassmorphismStyle),
   ("neo_brutalism", neoBrutalismStyle), ("claymorphism", claymorphismStyle),
   ("pixel_art", pixelArtStyle), ("isometric", isometricStyle)]

/-- The registry access `RENDERING_STYLES[styleId]`, which yields `undefined`
(`none`) for an identifier outside the keys of the record. -/
def lookupRenderingStyle (styleId : String) : Option RenderingStyle :=
  RENDERING_STYLES.lookup styleId

/-- Embedding of `getRenderingStylePrompt` from `src/lib/renderingStyles.ts`: `match_seed`
interpolates the seed style (or the placeholder `原有風格` when it is absent
or empty) into the style-preserving template; any other identifier is
resolved through the registry, falling back to the `3d_render` fragment when
the lookup fails. -/
def getRenderingStylePrompt (styleId : String) (seedStyle : Option String) : String :=
  if styleId = "match_seed" then
    "- App Store icon 格式\n- 保持原有視覺風格：" ++ orDefault seedStyle "原有風格" ++
      "\n- 維持種子 icon 的渲染品質和質感\n- 乾淨的邊緣，居中構圖\n- 配色與原 icon 協調\n- 必須感覺像種子 icon 的自然演化"
  else
    match lookupRenderingStyle styleId with
    | none => threeDRenderStyle.promptFragment
    | some style => style.promptFragment

end RenderingStyles

namespace PromptBuilder

/-- Embedding of `SelectedDimension` from `src/types/index.ts`: one toggle+value pair. -/
structure SelectedDimension where
  enabled : Bool
  value : String
  deriving Repr, DecidableEq

/-- Embedding of `SelectedDimensions` from `src/types/index.ts`: the four legacy evolution
dimensions. -/
structure SelectedDimensions where
  style : SelectedDimension
  pose : SelectedDimension
  costume : SelectedDimension
  mood : SelectedDimension
  deriving Repr, DecidableEq

/-- One conditional push onto `enabledDimensions` in
`src/lib/promptBuilder.ts`: the line is included exactly when the dimension
is `enabled` and its raw value is truthy (non-empty, not trimmed). -/
def dimLine (label : String) (d : SelectedDimension) : List String :=
  if d.enabled && d.value != "" then [label ++ d.value] else []

/-- The `enabledDimensions` array of `buildEvolutionPrompt`, built in the
fixed source order style, pose, costume, mood. -/
def enabledDimensions (sd : SelectedDimensions) : List String :=
  dimLine "風格演化: " sd.style ++ dimLine "動作演化: " sd.pose ++
  dimLine "服裝/道具演化: " sd.costume ++ dimLine "背景/氛圍演化: " sd.mood

/-- The `dimensionsText` of `buildEvolutionPrompt`: the qualifying lines
joined with newlines, or the fixed fallback line when none qualifies. -/
def dimensionsText (sd : SelectedDimensions) : String :=
  if (enabledDimensions sd).length > 0 then String.intercalate "\n" (enabledDimensions sd)
  else "保持原有風格，僅進行品質提升"

/-- The `mustPreserve` clause shared by `buildEvolutionPrompt` and
`buildUnifiedEvolutionPrompt`: a non-empty `functionGuard` is joined with
comma-space; otherwise `mustPreserve` of the optional icon analysis is joined
the same way, and the generic placeholder `核心識別元素` is used when that is
absent or falsy (empty). -/
def mustPreserveClause (functionGuard : List String)
    (iconAnalysis : Option EvolutionSuggestions.IconAnalysis) : String :=
  if functionGuard.length > 0 then String.intercalate ", " functionGuard
  else
    match iconAnalysis with
    | none => "核心識別元素"
    | some ia =>
      if String.intercalate ", " ia.mustPreserve = "" then "核心識別元素"
      else String.intercalate ", " ia.mustPreserve

/-- The `additionalSection` of both prompt builders: present only when the
optional free-text addendum is truthy. -/
def additionalSection (additionalPrompt : Option String) : String :=
  match additionalPrompt with
  | none => ""
  | some p => if p = "" then "" else "\n額外指示: " ++ p ++ "\n"

/-- Embedding of `BuildPromptOptions` from `src/lib/promptBuilder.ts` (optional fields as
`Option`, the `functionGuard = []` default applied). -/
structure BuildPromptOptions where
  selectedDimensions : SelectedDimensions
  iconAnalysis : Option EvolutionSuggestions.IconAnalysis
  functionGuard : List String
  additionalPrompt : Option String
  renderingStyle : Option String
  deriving Repr, DecidableEq

/-- Embedding of `buildEvolutionPrompt` from `src/lib/promptBuilder.ts` (legacy
four-dimension mode). -/
def buildEvolutionPrompt (options : BuildPromptOptions) : String :=
  "娛樂趨勢演化模式：附上的圖片是現有的 App Icon（種子 icon）。\n\n核心主體：" ++
  orDefault (options.iconAnalysis.map (fun ia => ia.coreSubject)) "原有主體" ++
  "\nApp 功能：" ++ orDefault (options.iconAnalysis.map (fun ia => ia.appFunction)) "原有功能" ++
  "\n\n演化關鍵規則：\n1. 必須保留：" ++ mustPreserveClause options.functionGuard options.iconAnalysis ++
  "\n2. 核心主體必須一眼可辨認 - 這是「演化」不是「重新設計」\n3. 保持 App 功能的視覺暗示\n4. 維持 icon 格式：方形、居中、適合 App Store\n\n選擇的演化維度：\n" ++
  dimensionsText options.selectedDimensions ++
  "\n" ++ additionalSection options.additionalPrompt ++
  "\n輸出要求：\n" ++
  RenderingStyles.getRenderingStylePrompt (orDefault options.renderingStyle "match_seed")
    (options.iconAnalysis.map (fun ia => ia.currentStyle)) ++
  "\n- 必須感覺像種子 icon 的自然演化，而非替換品"

/-- Embedding of `BuildUnifiedPromptOptions` from `src/lib/promptBuilder.ts`. -/
structure BuildUnifiedPromptOptions where
  evolutionDirection : String
  iconAnalysis : Option EvolutionSuggestions.IconAnalysis
  functionGuard : List String
  additionalPrompt : Option String
  renderingStyle : Option String
  deriving Repr, DecidableEq

/-- Embedding of `buildUnifiedEvolutionPrompt` from `src/lib/promptBuilder.ts` (new
unified-suggestion mode: the evolution direction is inserted verbatim in
place of the per-dimension lines). -/
def buildUnifiedEvolutionPrompt (options : BuildUnifiedPromptOptions) : String :=
  "娛樂趨勢演化模式：附上的圖片是現有的 App Icon（種子 icon）。\n\n核心主體：" ++
  orDefault (options.iconAnalysis.map (fun ia => ia.coreSubject)) "原有主體" ++
  "\nApp 功能：" ++ orDefault (options.iconAnalysis.map (fun ia => ia.appFunction)) "原有功能" ++
  "\n\n演化關鍵規則：\n1. 必須保留：" ++ mustPreserveClause options.functionGuard options.iconAnalysis ++
  "\n2. 核心主體必須一眼可辨認 - 這是「演化」不是「重新設計」\n3. 保持 App 功能的視覺暗示\n4. 維持 icon 格式：方形、居中、適合 App Store\n\n演化方向：\n" ++
  options.evolutionDirection ++
  "\n" ++ additionalSection options.additionalPrompt ++
  "\n輸出要求：\n" ++
  RenderingStyles.getRenderingStylePrompt (orDefault options.renderingStyle "match_seed")
    (options.iconAnalysis.map (fun ia => ia.currentStyle)) ++
  "\n- 必須感覺像種子 icon 的自然演化，而非替換品"

end PromptBuilder

namespace UseAnalysis

/-- Embedding of `AppState` from `src/types/index.ts` (new entertainment-insights flow
followed by the legacy brief-based states). -/
inductive AppState where
  | IDLE
  | ANALYZING_ENTERTAINMENT
  | INSIGHTS_REVIEW
  | SUGGESTING
  | CUSTOMIZATION
  | GENERATING
  | COMPLETE
  | ANALYZING
  | ANALYSIS_REVIEW
  | SYNTHESIZING
  | TRENDS_REVIEW
  | BRIEFING
  | BRIEFS_REVIEW
  deriving Repr, DecidableEq

/-- Embedding of `ScreenshotFile` from `src/types/index.ts`. -/
structure ScreenshotFile where
  data : String
  mimeType : String
  preview : String
  deriving Repr, DecidableEq

/-- Embedding of `EvolutionInput` from `src/types/index.ts`. -/
structure EvolutionInput where
  appIcon : String
  appName : String
  appCategory : String
  appDescription : String
  deriving Repr, DecidableEq

/-- Embedding of `TargetAudience` from `src/types/index.ts`. -/
structure TargetAudience where
  demographics : String
  interests : List String
  deriving Repr, DecidableEq

/-- The optional `fetchedIcon` payload of `EntertainmentInsights`. -/
structure FetchedIcon where
  data : String
  mimeType : String
  deriving Repr, DecidableEq

/-- Embedding of `EntertainmentInsights` from `src/types/index.ts` (the fields the hook
reads; `sources` is never consulted by the state machine). -/
structure EntertainmentInsights where
  targetAudience : TargetAudience
  entertainmentTrends : EvolutionSuggestions.EntertainmentTrends
  iconAnalysis : EvolutionSuggestions.IconAnalysis
  fetchedIcon : Option FetchedIcon
  deriving Repr, DecidableEq

/-- Embedding of `UnifiedSuggestion` from `src/types/index.ts`. -/
structure UnifiedSuggestion where
  evolutionDirection : String
  rationale : String
  keyElements : List String
  deriving Repr, DecidableEq

/-- The `functionGuard` payload `{warning, reason}`. -/
structure FunctionGuard where
  warning : String
  reason : String
  deriving Repr, DecidableEq

/-- Embedding of `EvolutionSuggestionsV2` from `src/types/index.ts`, extended with the
`selectedTrendNames` the handler adds to its JSON response (the hook reads
`result.suggestion`, `result.functionGuard` and `result.selectedTrendNames`). -/
structure EvolutionSuggestionsV2 where
  suggestion : UnifiedSuggestion
  functionGuard : FunctionGuard
  selectedTrendNames : List String
  deriving Repr, DecidableEq

/-- The `AnalysisState` record of `src/hooks/useAnalysis.ts` (entertainment
flow). -/
structure AnalysisState where
  status : AppState
  screenshots : List ScreenshotFile
  appInput : String
  evolutionInput : EvolutionInput
  entertainmentInsights : Option EntertainmentInsights
  unifiedSuggestion : Option UnifiedSuggestion
  editedSuggestion : String
  selectedTrendNames : List String
  functionGuard : Option FunctionGuard
  selectedTrends : List String
  generatedIcon : Option String
  deriving Repr, DecidableEq

/-- Outcome of one awaited external call: the promise either resolves with a
value or rejects with an error message. -/
inductive ApiOutcome (α : Type) where
  | ok : α → ApiOutcome α
  | error : String → ApiOutcome α
  deriving Repr

/-- Embedding of `startEntertainmentAnalysis` from `src/hooks/useAnalysis.ts`, as a pure
step on the state: `playStoreMode` abstracts the Play-Store-URL regex match
on `appInput`, and `call` is the outcome of the awaited
`api.getEntertainmentInsights` call. Early validation returns leave the
state unchanged (they only raise a toast); a rejected call lands the state
back on `IDLE` with every other field untouched. -/
def startEntertainmentAnalysis (s : AnalysisState) (playStoreMode : Bool)
    (call : ApiOutcome EntertainmentInsights) : AnalysisState :=
  if playStoreMode then
    match call with
    | ApiOutcome.ok result =>
      match result.fetchedIcon with
      | none => { s with status := AppState.IDLE }
      | some icon =>
        { s with
          entertainmentInsights := some result
          screenshots := [⟨icon.data, icon.mimeType,
            "data:" ++ icon.mimeType ++ ";base64," ++ icon.data⟩]
          status := AppState.INSIGHTS_REVIEW }
    | ApiOutcome.error _ => { s with status := AppState.IDLE }
  else if s.screenshots.length > 0 then
    if jsTrim s.evolutionInput.appName = "" then s
    else if s.evolutionInput.appCategory = "" then s
    else if orDefault (some (jsTrim s.evolutionInput.appDescription)) (jsTrim s.appInput) = ""
      then s
    else
      match call with
      | ApiOutcome.ok result =>
        { s with
          entertainmentInsights := some result
          status := AppState.INSIGHTS_REVIEW }
      | ApiOutcome.error _ => { s with status := AppState.IDLE }
  else s

/-- Embedding of `startEvolutionSuggestions` from `src/hooks/useAnalysis.ts`, as a pure
step on the state: requires `entertainmentInsights`; on resolution records
the unified suggestion and moves to `CUSTOMIZATION`; on rejection moves back
to `INSIGHTS_REVIEW` with every other field untouched. -/
def startEvolutionSuggestions (s : AnalysisState)
    (call : ApiOutcome EvolutionSuggestionsV2) : AnalysisState :=
  match s.entertainmentInsights with
  | none => s
  | some _ =>
    match call with
    | ApiOutcome.ok result =>
      { s with
        unifiedSuggestion := some result.suggestion
        editedSuggestion := result.suggestion.evolutionDirection
        selectedTrendNames := result.selectedTrendNames
        functionGuard := some result.functionGuard
        status := AppState.CUSTOMIZATION }
    | ApiOutcome.error _ => { s with status := AppState.INSIGHTS_REVIEW }

/-- Embedding of `generateEvolution` from `src/hooks/useAnalysis.ts`, as a pure step on
the state: requires a screenshot and a non-blank edited suggestion; on
resolution records the generated icon and moves to `COMPLETE`; on rejection
moves back to `CUSTOMIZATION` with every other field untouched. -/
def generateEvolution (s : AnalysisState) (call : ApiOutcome String) : AnalysisState :=
  if s.screenshots.length = 0 then s
  else if jsTrim s.editedSuggestion = "" then s
  else
    match call with
    | ApiOutcome.ok result =>
      { s with generatedIcon := some result, status := AppState.COMPLETE }
    | ApiOutcome.error _ => { s with status := AppState.CUSTOMIZATION }

end UseAnalysis

/-! Concrete inputs used by the scenario conjuncts, the counterexample and
the witnesses below. -/

/-- A well-formed screenshot payload. -/
def shotEx : Validators.JsValue :=
  Validators.JsValue.vObj
    [("data", Validators.JsValue.vStr "iVBORw0KGgo"), ("mimeType", Validators.JsValue.vStr "image/png")]

/-- A screenshot payload with a disallowed mime type. -/
def shotBadMime : Validators.JsValue :=
  Validators.JsValue.vObj
    [("data", Validators.JsValue.vStr "AAAA"), ("mimeType", Validators.JsValue.vStr "image/tiff")]

/-- The well-typed non-psychographic fields of an analysis payload. -/
def goodAnalysisFields : List (String × Validators.JsValue) :=
  [("vertical", Validators.JsValue.vStr "productivity"),
   ("demographics", Validators.JsValue.vStr "18-34 urban professionals"),
   ("features", Validators.JsValue.vArr [Validators.JsValue.vStr "timer"]),
   ("competitors", Validators.JsValue.vArr [])]

/-- An analysis payload whose `psychographicProfile` field is missing. -/
def analysisNoPsy : Validators.JsValue := Validators.JsValue.vObj goodAnalysisFields

/-- An analysis payload whose `psychographicProfile` field is a number. -/
def analysisNumPsy : Validators.JsValue :=
  Validators.JsValue.vObj (goodAnalysisFields ++ [("psychographicProfile", Validators.JsValue.vNum 3)])

/-- An analysis payload whose `psychographicProfile` field is a string. -/
def analysisStrPsy : Validators.JsValue :=
  Validators.JsValue.vObj
    (goodAnalysisFields ++ [("psychographicProfile", Validators.JsValue.vStr "focus-driven")])

/-- The anime trend item `Demon Slayer` of scenario A. -/
def dsAnime : EvolutionSuggestions.EntertainmentTrendItem :=
  ⟨"Demon Slayer", "popular dark-fantasy series", ["flame motifs", "checkered pattern"]⟩

/-- Scenario A corpus: two movies, one game, two anime (including
`Demon Slayer`), one aesthetic. -/
def corpusA : EvolutionSuggestions.EntertainmentTrends :=
  ⟨[⟨"Dune", "epic desert scale", ["sand tones"]⟩, ⟨"Knives Out", "stylish mystery", ["bold colors"]⟩],
   [⟨"Elden Ring", "dark fantasy hit", ["golden mist"]⟩],
   [⟨"Jujutsu Kaisen", "urban fantasy", ["cursed energy"]⟩, dsAnime],
   [⟨"Y2K", "retro-futurist revival", ["chrome text"]⟩]⟩

/-- Scenario A selection set. -/
def selA : List String := ["anime-Demon Slayer"]

/-- A concrete icon analysis. -/
def iaEx : EvolutionSuggestions.IconAnalysis :=
  ⟨"Orange cat mascot", "Timer app", "3D cartoon", ["cat face", "orange color"]⟩

/-- Scenario B dimensions: style enabled `cyberpunk`, mood enabled
`neon haze`, pose and costume disabled. -/
def dimsB : PromptBuilder.SelectedDimensions :=
  ⟨⟨true, "cyberpunk"⟩, ⟨false, ""⟩, ⟨false, ""⟩, ⟨true, "neon haze"⟩⟩

/-- A dimension set whose style value is a single space: truthy for the code,
empty after trimming. -/
def dimsSpace : PromptBuilder.SelectedDimensions :=
  ⟨⟨true, " "⟩, ⟨false, ""⟩, ⟨false, ""⟩, ⟨false, ""⟩⟩

/-- A concrete entertainment-insights payload. -/
def insightsEx : UseAnalysis.EntertainmentInsights :=
  ⟨⟨"18-34", ["anime"]⟩, corpusA, iaEx, none⟩

/-- A concrete pipeline state sitting in `CUSTOMIZATION` with every upstream
output computed. -/
def stateEx : UseAnalysis.AnalysisState :=
  ⟨UseAnalysis.AppState.CUSTOMIZATION,
   [⟨"iVBORw0KGgo", "image/png", "data:image/png;base64,iVBORw0KGgo"⟩],
   "",
   ⟨"iVBORw0KGgo", "MyTimer", "Productivity", "A friendly timer app"⟩,
   some insightsEx,
   some ⟨"lean into neon cyberpunk lighting", "matches selected trends", ["neon rim light"]⟩,
   "lean into neon cyberpunk lighting",
   ["Demon Slayer"],
   some ⟨"keep the cat face", "recognizability"⟩,
   ["anime-Demon Slayer"],
   none⟩

/-- A two-element selection set. -/
def selPermA : List String := ["anime-Demon Slayer", "movie-Dune"]

/-- The same selection set inserted in the opposite order. -/
def selPermB : List String := ["movie-Dune", "anime-Demon Slayer"]

/-! Helper lemmas shared by several claims. -/

/-- Embedding of `List.contains` on strings agrees with membership. -/
theorem strListContains_iff (l : List String) (x : String) : l.contains x = true ↔ x ∈ l := by
  simp

/-- Every character surviving `sanitizeInput` passes the angle-bracket
filter. -/
theorem sanitize_mem_char (s : String) (maxLength : Nat) (c : Char)
    (h : c ∈ (Validators.sanitizeInput (some s) maxLength).data) :
    (c != '<' && c != '>') = true := by
  simp only [Validators.sanitizeInput] at h
  by_cases hs : s = ""
  · rw [if_pos hs] at h
    exact absurd h (List.not_mem_nil c)
  · rw [if_neg hs] at h
    exact (List.mem_filter.mp h).2

/-- A true `isAllowedMimeField` check exposes a string mime type drawn from
the allow-list. -/
theorem isAllowedMimeField_spec (v : Option Validators.JsValue)
    (h : Validators.isAllowedMimeField v = true) :
    ∃ m, v = some (Validators.JsValue.vStr m) ∧ m ∈ Validators.ALLOWED_IMAGE_TYPES := by
  cases v with
  | none => simp [Validators.isAllowedMimeField] at h
  | some w =>
    cases w with
    | vStr m =>
      refine ⟨m, rfl, ?_⟩
      simpa [Validators.isAllowedMimeField] using h
    | vNull => simp [Validators.isAllowedMimeField] at h
    | vBool b => simp [Validators.isAllowedMimeField] at h
    | vNum n => simp [Validators.isAllowedMimeField] at h
    | vArr l => simp [Validators.isAllowedMimeField] at h
    | vObj l => simp [Validators.isAllowedMimeField] at h

/-- A payload accepted by `validateScreenshot` has an allow-listed string
mime type. -/
theorem validateScreenshot_mime (x : Validators.JsValue)
    (h : Validators.validateScreenshot x = true) :
    ∃ m, Validators.getField x "mimeType" = some (Validators.JsValue.vStr m) ∧
      m ∈ Validators.ALLOWED_IMAGE_TYPES := by
  unfold Validators.validateScreenshot at h
  by_cases ho : Validators.isObjectLike x = true
  · rw [if_neg (by simp [ho])] at h
    exact isAllowedMimeField_spec _ ((Bool.and_eq_true _ _).mp h).2
  · rw [if_pos (by simpa using ho)] at h
    exact Bool.noConfusion h

/-- Claim C6: `sanitizeInput` returns `""` for a missing (non-string) or
empty input, and for every input whatsoever the result contains no `<` or
`>` character and never exceeds `maxLength` characters; the embedding is a
total function, so no input can make it throw. -/
theorem sanitizeInput_safe (input : Option String) (maxLength : Nat) :
    '<' ∉ (Validators.sanitizeInput input maxLength).data ∧
    '>' ∉ (Validators.sanitizeInput input maxLength).data ∧
    (Validators.sanitizeInput input maxLength).length ≤ maxLength ∧
    Validators.sanitizeInput none maxLength = "" ∧
    Validators.sanitizeInput (some "") maxLength = "" := by
  refine ⟨?_, ?_, ?_, rfl, by simp [Validators.sanitizeInput]⟩
  · intro h
    match input with
    | none => exact absurd h (List.not_mem_nil _)
    | some s => exact absurd (sanitize_mem_char s maxLength '<' h) (by decide)
  · intro h
    match input with
    | none => exact absurd h (List.not_mem_nil _)
    | some s => exact absurd (sanitize_mem_char s maxLength '>' h) (by decide)
  · match input with
    | none => simp [Validators.sanitizeInput]
    | some s =>
      simp only [Validators.sanitizeInput]
      by_cases hs : s = ""
      · simp [hs]
      · rw [if_neg hs]
        calc (String.mk (((jsTrim s).data.take maxLength).filter
                (fun c => c != '<' && c != '>'))).length
            = (((jsTrim s).data.take maxLength).filter
                (fun c => c != '<' && c != '>')).length := rfl
          _ ≤ ((jsTrim s).data.take maxLength).length := List.length_filter_le _ _
          _ ≤ maxLength := by rw [List.length_take]; exact min_le_left _ _

/-- Claim C9: `filterValidScreenshots` returns at most `maxCount` entries,
all drawn from the first `maxCount` input items, each passing
`validateScreenshot` and therefore carrying an allow-listed mime type; the
embedding is total, so empty or oversized input lists cannot make it
error. -/
theorem filterValidScreenshots_sound (screenshots : List Validators.JsValue) (maxCount : Nat) :
    (Validators.filterValidScreenshots screenshots maxCount).length ≤ maxCount ∧
    ∀ x ∈ Validators.filterValidScreenshots screenshots maxCount,
      x ∈ screenshots.take maxCount ∧ Validators.validateScreenshot x = true ∧
      ∃ m, Validators.getField x "mimeType" = some (Validators.JsValue.vStr m) ∧
        m ∈ Validators.ALLOWED_IMAGE_TYPES := by
  constructor
  · calc (Validators.filterValidScreenshots screenshots maxCount).length
        ≤ (screenshots.take maxCount).length := List.length_filter_le _ _
      _ ≤ maxCount := by rw [List.length_take]; exact min_le_left _ _
  · intro x hx
    have h := List.mem_filter.mp hx
    exact ⟨h.1, h.2, validateScreenshot_mime x h.2⟩

/-- Witness for C9 at a concrete two-element list (one valid payload, one
`null`). -/
theorem filterValidScreenshots_sound_witness :
    shotEx ∈ [shotEx, Validators.JsValue.vNull].take 10 ∧
    Validators.validateScreenshot shotEx = true ∧
    ∃ m, Validators.getField shotEx "mimeType" = some (Validators.JsValue.vStr m) ∧
      m ∈ Validators.ALLOWED_IMAGE_TYPES :=
  (filterValidScreenshots_sound [shotEx, Validators.JsValue.vNull] 10).2 shotEx
    (by
      have h : Validators.filterValidScreenshots [shotEx, Validators.JsValue.vNull] 10
          = [shotEx] := rfl
      rw [h]
      exact List.mem_singleton.mpr rfl)

/-- Claim C10: `validateAnalysis` accepts only objects whose
`psychographicProfile` is a string or a non-null object; a payload whose
other four gated fields are well-typed is still rejected when the profile is
missing or otherwise typed, and accepted when it is a string. -/
theorem validateAnalysis_psychographic_gate :
    (∀ a : Validators.JsValue, Validators.validateAnalysis a = true →
       Validators.isStringOrNonNullObject (Validators.getField a "psychographicProfile") = true) ∧
    Validators.validateAnalysis analysisNoPsy = false ∧
    Validators.validateAnalysis analysisNumPsy = false ∧
    Validators.validateAnalysis analysisStrPsy = true := by
  refine ⟨?_, rfl, rfl, rfl⟩
  intro a h
  unfold Validators.validateAnalysis at h
  by_cases ho : Validators.isObjectLike a = true
  · rw [if_neg (by simp [ho])] at h
    rw [Bool.and_eq_true] at h
    exact h.2
  · rw [if_pos (by simpa using ho)] at h
    exact Bool.noConfusion h

/-- Witness for C10: the string-profile payload is accepted and its profile
field passes the string-or-object gate. -/
theorem validateAnalysis_psychographic_gate_witness :
    Validators.isStringOrNonNullObject (Validators.getField analysisStrPsy "psychographicProfile")
      = true :=
  validateAnalysis_psychographic_gate.1 analysisStrPsy rfl

open Validators EvolutionSuggestions RenderingStyles PromptBuilder UseAnalysis

/-- Claim C3: `filterTrendsBySelection` is sound — each of the four filtered
category lists contains only items whose candidate identifier
(`category-title`, lower-cased) is a member of the lower-cased selection set,
and every entry of the matched-names list comes from a corpus item whose
identifier is selected; no corpus item outside the selection and its
category-prefixed identifiers reaches the output or the matched-names
list. -/
theorem filterTrendsBySelection_sound (trends : EntertainmentTrends) (sel : List String) :
    (∀ m ∈ selectedMovies trends sel, trendIdMovie m ∈ selectedSetOf sel) ∧
    (∀ g ∈ selectedGames trends sel, trendIdGame g ∈ selectedSetOf sel) ∧
    (∀ a ∈ selectedAnime trends sel, trendIdAnime a ∈ selectedSetOf sel) ∧
    (∀ a ∈ selectedAesthetics trends sel, trendIdAesthetic a ∈ selectedSetOf sel) ∧
    (∀ name ∈ (filterTrendsBySelection trends sel).selectedNames,
      (∃ m, m ∈ trends.movies ∧ m.title = name ∧ trendIdMovie m ∈ selectedSetOf sel) ∨
      (∃ g, g ∈ trends.games ∧ g.title = name ∧ trendIdGame g ∈ selectedSetOf sel) ∨
      (∃ a, a ∈ trends.anime ∧ a.title = name ∧ trendIdAnime a ∈ selectedSetOf sel) ∨
      (∃ a, a ∈ trends.aesthetics ∧ a.name = name ∧ trendIdAesthetic a ∈ selectedSetOf sel)) := by
  refine ⟨?_, ?_, ?_, ?_, ?_⟩
  · intro m hm
    exact (strListContains_iff _ _).mp (List.mem_filter.mp hm).2
  · intro g hg
    exact (strListContains_iff _ _).mp (List.mem_filter.mp hg).2
  · intro a ha
    exact (strListContains_iff _ _).mp (List.mem_filter.mp ha).2
  · intro a ha
    exact (strListContains_iff _ _).mp (List.mem_filter.mp ha).2
  · intro name hname
    unfold filterTrendsBySelection at hname
    by_cases h0 : sel.length = 0
    · rw [if_pos h0] at hname
      exact absurd hname (List.not_mem_nil _)
    · rw [if_neg h0] at hname
      have hname' : name ∈ selectedNamesOf trends sel := hname
      unfold selectedNamesOf at hname'
      rcases List.mem_append.mp hname' with h3 | h4
      · rcases List.mem_append.mp h3 with h2 | h3'
        · rcases List.mem_append.mp h2 with h1 | h2'
          · left
            obtain ⟨m, hm, hmt⟩ := List.mem_map.mp h1
            have hf := List.mem_filter.mp hm
            exact ⟨m, hf.1, hmt, (strListContains_iff _ _).mp hf.2⟩
          · right; left
            obtain ⟨g, hg, hgt⟩ := List.mem_map.mp h2'
            have hf := List.mem_filter.mp hg
            exact ⟨g, hf.1, hgt, (strListContains_iff _ _).mp hf.2⟩
        · right; right; left
          obtain ⟨a, ha, hat⟩ := List.mem_map.mp h3'
          have hf := List.mem_filter.mp ha
          exact ⟨a, hf.1, hat, (strListContains_iff _ _).mp hf.2⟩
      · right; right; right
        obtain ⟨a, ha, hat⟩ := List.mem_map.mp h4
        have hf := List.mem_filter.mp ha
        exact ⟨a, hf.1, hat, (strListContains_iff _ _).mp hf.2⟩

/-- Witness for C3 at the scenario-A corpus and selection: the single matched
name `Demon Slayer` indeed comes from a selected anime item. -/
theorem filterTrendsBySelection_sound_witness :
    (∃ m, m ∈ corpusA.movies ∧ m.title = "Demon Slayer" ∧
      trendIdMovie m ∈ selectedSetOf selA) ∨
    (∃ g, g ∈ corpusA.games ∧ g.title = "Demon Slayer" ∧
      trendIdGame g ∈ selectedSetOf selA) ∨
    (∃ a, a ∈ corpusA.anime ∧ a.title = "Demon Slayer" ∧
      trendIdAnime a ∈ selectedSetOf selA) ∨
    (∃ a, a ∈ corpusA.aesthetics ∧ a.name = "Demon Slayer" ∧
      trendIdAesthetic a ∈ selectedSetOf selA) :=
  (filterTrendsBySelection_sound corpusA selA).2.2.2.2 "Demon Slayer"
    (by
      have h : (filterTrendsBySelection corpusA selA).selectedNames = ["Demon Slayer"] := by
        decide
      rw [h]
      exact List.mem_singleton.mpr rfl)

set_option maxRecDepth 8192 in
/-- Claim C4: an empty selection set yields an empty filtered context and an
empty matched-names list for any corpus, and the handler then assembles the
generic quality-uplift template, which is provably distinct from the
trend-guided template at every input (the two templates differ in their
fixed text). -/
theorem emptySelection_generic_branch (trends : EntertainmentTrends) (ia : IconAnalysis)
    (c a st : String) (mp : List String) (f : String) :
    filterTrendsBySelection trends [] = FilterResult.mk "" [] ∧
    handlerPrompt ia trends [] =
      genericUpliftPrompt (sanitize ia.coreSubject) (sanitize ia.appFunction)
        (sanitize ia.currentStyle) ((ia.mustPreserve.map sanitize).filter (fun s => s != "")) ∧
    genericUpliftPrompt c a st mp ≠ trendGuidedPrompt c a st mp f := by
  refine ⟨rfl, rfl, ?_⟩
  intro h
  have hl := congrArg String.length h
  unfold genericUpliftPrompt trendGuidedPrompt at hl
  simp only [String.length_append] at hl
  have hA : ("你是一位創意總監與 Icon 設計專家。\n\n用戶尚未選擇任何特定趨勢，請根據 Icon 的特性提供一個通用的品質提升建議。\n\n## 原 Icon 分析\n- 核心主體：" : String).length +
      ("\n- App 功能：" : String).length + ("\n- 現有風格：" : String).length +
      ("\n- 必須保留的元素：" : String).length +
      ("\n\n請提出一個品質提升的建議，專注於：\n1. 提升視覺精緻度和現代感\n2. 優化光影和材質表現\n3. 增強色彩層次和對比\n4. 保持核心識別元素\n\n## 功能守護提醒\n最後，請提醒用戶在演化過程中應該保留哪些元素，以確保：\n1. 用戶仍能認出這是同一個 App\n2. Icon 仍能清楚傳達 App 的功能\n\n請返回 JSON 格式的建議。" : String).length <
      ("你是一位創意總監與 Icon 設計專家。\n\n基於用戶選擇的娛樂趨勢，為這個 App Icon 提出一個統一的演化方向建議。\n\n## 原 Icon 分析\n- 核心主體：" : String).length +
      ("\n- App 功能：" : String).length + ("\n- 現有風格：" : String).length +
      ("\n- 必須保留的元素：" : String).length + ("\n\n## 用戶選擇的趨勢\n" : String).length +
      ("\n\n請提出一個整合性的演化建議，將所有選定趨勢的視覺元素融合成一個統一且協調的設計方向。\n\n要求：\n1. 不要分開描述各個趨勢的影響，而是將它們融合成一個連貫的演化概念\n2. 具體描述視覺效果（色彩、光影、質感、元素等）\n3. 解釋這個方向如何保留 Icon 的核心識別同時帶來新鮮感\n4. 提供 3-5 個關鍵視覺元素作為設計指引\n\n## 功能守護提醒\n最後，請提醒用戶在演化過程中應該保留哪些元素，以確保：\n1. 用戶仍能認出這是同一個 App\n2. Icon 仍能清楚傳達 App 的功能\n\n請返回 JSON 格式的建議。" : String).length := by
    decide
  omega

/-- A one-element conditional list is a sublist of the unconditional
singleton. -/
theorem ite_singleton_sublist {α : Type} (c : Prop) [Decidable c] (x : α) :
    List.Sublist (if c then [x] else []) [x] := by
  by_cases h : c
  · rw [if_pos h]
  · rw [if_neg h]
    exact List.nil_sublist _

/-- Embedding of `List.contains` is invariant under permutation of the list. -/
theorem contains_perm {l l' : List String} (h : List.Perm l l') (x : String) :
    l.contains x = l'.contains x := by
  have hiff : x ∈ l ↔ x ∈ l' := h.mem_iff
  by_cases hm : x ∈ l
  · rw [(strListContains_iff l x).mpr hm, (strListContains_iff l' x).mpr (hiff.mp hm)]
  · have h1 : l.contains x = false := by
      cases hc : l.contains x
      · rfl
      · exact absurd ((strListContains_iff l x).mp hc) hm
    have h2 : l'.contains x = false := by
      cases hc : l'.contains x
      · rfl
      · exact absurd (hiff.mpr ((strListContains_iff l' x).mp hc)) hm
    rw [h1, h2]

set_option maxRecDepth 8192 in
/-- Claim C5: the `sections` array holds at most one titled block per
category, listed in the fixed canonical order movies, games, anime,
aesthetics (it is an ordered sublist of the four per-category blocks, hence
of length at most 4); the whole filter result is invariant under permuting
the selection set; and on scenario A (selection `anime-Demon Slayer`, corpus
of 2 movies, 1 game, 2 anime, 1 aesthetic) the output is exactly the one
anime block with the one matching item and matched names `["Demon Slayer"]`. -/
theorem sections_canonical_order (trends : EntertainmentTrends) (sel sel' : List String)
    (hperm : List.Perm sel sel') :
    List.Sublist (sectionsOf trends sel)
      [movieSection (selectedMovies trends sel), gameSection (selectedGames trends sel),
       animeSection (selectedAnime trends sel), aestheticSection (selectedAesthetics trends sel)] ∧
    (sectionsOf trends sel).length ≤ 4 ∧
    filterTrendsBySelection trends sel = filterTrendsBySelection trends sel' ∧
    sectionsOf corpusA selA = [animeSection [dsAnime]] ∧
    (selectedAnime corpusA selA).length = 1 ∧
    (filterTrendsBySelection corpusA selA).selectedNames = ["Demon Slayer"] := by
  have hsub : List.Sublist (sectionsOf trends sel)
      ([movieSection (selectedMovies trends sel)] ++ [gameSection (selectedGames trends sel)] ++
       [animeSection (selectedAnime trends sel)] ++ [aestheticSection (selectedAesthetics trends sel)]) :=
    List.Sublist.append
      (List.Sublist.append
        (List.Sublist.append (ite_singleton_sublist _ _) (ite_singleton_sublist _ _))
        (ite_singleton_sublist _ _))
      (ite_singleton_sublist _ _)
  refine ⟨hsub, le_trans (List.Sublist.length_le hsub) (by simp), ?_, by decide, by decide, by decide⟩
  have hlow : List.Perm (selectedSetOf sel) (selectedSetOf sel') := hperm.map jsToLower
  have hM : selectedMovies trends sel = selectedMovies trends sel' :=
    List.filter_congr (fun m _ => contains_perm hlow (trendIdMovie m))
  have hG : selectedGames trends sel = selectedGames trends sel' :=
    List.filter_congr (fun g _ => contains_perm hlow (trendIdGame g))
  have hA : selectedAnime trends sel = selectedAnime trends sel' :=
    List.filter_congr (fun a _ => contains_perm hlow (trendIdAnime a))
  have hE : selectedAesthetics trends sel = selectedAesthetics trends sel' :=
    List.filter_congr (fun a _ => contains_perm hlow (trendIdAesthetic a))
  unfold filterTrendsBySelection
  rw [hperm.length_eq]
  by_cases h0 : sel'.length = 0
  · rw [if_pos h0, if_pos h0]
  · rw [if_neg h0, if_neg h0]
    unfold sectionsOf selectedNamesOf
    rw [hM, hG, hA, hE]

/-- Witness for C5: swapping the two selection entries leaves the filter
result unchanged. -/
theorem sections_canonical_order_witness :
    filterTrendsBySelection corpusA selPermA = filterTrendsBySelection corpusA selPermB :=
  (sections_canonical_order corpusA selPermA selPermB
    (List.Perm.swap "movie-Dune" "anime-Demon Slayer" [])).2.2.1

set_option maxRecDepth 8192 in
/-- Claim C7: `getRenderingStylePrompt` resolves unknown style identifiers
through the registry to the fragment of the `3d_render` preset; the `match_seed`
identifier never returns its static (empty) registry fragment but instead
interpolates the current style of the seed icon into the style-preserving
template, with the fixed placeholder `原有風格` substituted when the current
style is absent (or falsy). -/
theorem getRenderingStylePrompt_resolution (styleId : String) (seedStyle : Option String)
    (h : lookupRenderingStyle styleId = none) :
    getRenderingStylePrompt styleId seedStyle = threeDRenderStyle.promptFragment ∧
    (∀ seed : Option String, getRenderingStylePrompt "match_seed" seed =
      "- App Store icon 格式\n- 保持原有視覺風格：" ++ orDefault seed "原有風格" ++
        "\n- 維持種子 icon 的渲染品質和質感\n- 乾淨的邊緣，居中構圖\n- 配色與原 icon 協調\n- 必須感覺像種子 icon 的自然演化") ∧
    (∀ seed : Option String,
      getRenderingStylePrompt "match_seed" seed ≠ matchSeedStyle.promptFragment) ∧
    getRenderingStylePrompt "match_seed" none =
      "- App Store icon 格式\n- 保持原有視覺風格：原有風格\n- 維持種子 icon 的渲染品質和質感\n- 乾淨的邊緣，居中構圖\n- 配色與原 icon 協調\n- 必須感覺像種子 icon 的自然演化" ∧
    getRenderingStylePrompt "match_seed" (some "") = getRenderingStylePrompt "match_seed" none := by
  refine ⟨?_, fun seed => rfl, ?_, by decide, rfl⟩
  · by_cases hid : styleId = "match_seed"
    · subst hid
      exact absurd h (by decide)
    · unfold getRenderingStylePrompt
      rw [if_neg hid, h]
  · intro seed heq
    have hd := congrArg String.data heq
    unfold getRenderingStylePrompt at hd
    rw [if_pos rfl] at hd
    have hd' : (("- App Store icon 格式\n- 保持原有視覺風格：" : String).data ++
        (orDefault seed "原有風格").data) ++
        ("\n- 維持種子 icon 的渲染品質和質感\n- 乾淨的邊緣，居中構圖\n- 配色與原 icon 協調\n- 必須感覺像種子 icon 的自然演化" : String).data
        = ([] : List Char) := hd
    have hsplit := List.append_eq_nil.mp hd'
    exact absurd hsplit.2 (by decide)

/-- Witness for C7: the unknown identifier `watercolor` falls back to the
3D-render fragment. -/
theorem getRenderingStylePrompt_resolution_witness :
    getRenderingStylePrompt "watercolor" (some "3D cartoon") = threeDRenderStyle.promptFragment :=
  (getRenderingStylePrompt_resolution "watercolor" (some "3D cartoon") (by decide)).1

/-- Claim C2: with a non-empty function guard, the assembled must-preserve
clause is exactly the guard entries joined with comma-space, fully replacing
`mustPreserve` (the outputs of both builders are invariant under replacing
`mustPreserve` by anything else); with an empty guard and an absent or empty
`mustPreserve`, the clause is the fixed generic placeholder, so a clause is
always present. -/
theorem mustPreserve_precedence (fg : List String) (ia : IconAnalysis) (mp : List String)
    (ed : String) (dims : SelectedDimensions) (ap rs : Option String)
    (h : fg ≠ []) :
    mustPreserveClause fg (some ia) = String.intercalate ", " fg ∧
    mustPreserveClause fg none = String.intercalate ", " fg ∧
    buildUnifiedEvolutionPrompt ⟨ed, some ia, fg, ap, rs⟩ =
      buildUnifiedEvolutionPrompt
        ⟨ed, some (IconAnalysis.mk ia.coreSubject ia.appFunction ia.currentStyle mp), fg, ap, rs⟩ ∧
    buildEvolutionPrompt ⟨dims, some ia, fg, ap, rs⟩ =
      buildEvolutionPrompt
        ⟨dims, some (IconAnalysis.mk ia.coreSubject ia.appFunction ia.currentStyle mp), fg, ap, rs⟩ ∧
    mustPreserveClause [] none = "核心識別元素" ∧
    mustPreserveClause []
      (some (IconAnalysis.mk ia.coreSubject ia.appFunction ia.currentStyle [])) = "核心識別元素" := by
  have hlen : 0 < fg.length := List.length_pos.mpr h
  obtain ⟨cs, af, cst, mp0⟩ := ia
  refine ⟨?_, ?_, ?_, ?_, rfl, rfl⟩
  · unfold mustPreserveClause
    rw [if_pos hlen]
  · unfold mustPreserveClause
    rw [if_pos hlen]
  · simp [buildUnifiedEvolutionPrompt, mustPreserveClause, hlen]
  · simp [buildEvolutionPrompt, mustPreserveClause, hlen]

/-- Witness for C2 at a concrete guard and analysis. -/
theorem mustPreserve_precedence_witness :
    mustPreserveClause ["Keep the smile", "Preserve brand color"] (some iaEx) =
      String.intercalate ", " ["Keep the smile", "Preserve brand color"] :=
  (mustPreserve_precedence ["Keep the smile", "Preserve brand color"] iaEx ["replaced"]
    "direction" dimsB none none (by decide)).1

/-- Counterexample to C8 as stated: with style enabled and value `" "` (one
space) the trimmed value is empty, yet the code still contributes a style
line — the gate checks raw truthiness, not the trimmed value. -/
theorem dimension_gate_counterexample :
    jsTrim " " = "" ∧
    dimsSpace.style.enabled = true ∧
    enabledDimensions dimsSpace = ["風格演化:  "] ∧
    dimensionsText dimsSpace = "風格演化:  " := by decide

/-- A line found in a `dimLine` block certifies the raw (untrimmed) gate. -/
theorem mem_dimLine {label : String} {d : SelectedDimension} {line : String}
    (h : line ∈ dimLine label d) :
    line = label ++ d.value ∧ d.enabled = true ∧ d.value ≠ "" := by
  unfold dimLine at h
  split at h
  · next hc =>
    rw [Bool.and_eq_true] at hc
    refine ⟨?_, hc.1, ?_⟩
    · simpa using h
    · simpa using hc.2
  · exact absurd h (List.not_mem_nil _)

/-- Claim C8 as amended: the four dimensions are assembled in the fixed order
style, pose, costume, mood; a dimension contributes a line exactly when it is
enabled and its raw value is non-empty (no trimming — a whitespace-only
value still contributes); when no dimension qualifies the fixed fallback
line is used; scenario B (style `cyberpunk` and mood `neon haze` enabled,
pose and costume disabled) yields exactly the style line and the mood line. -/
theorem dimension_gate_amended (sd : SelectedDimensions) :
    (∀ line ∈ enabledDimensions sd,
      (line = "風格演化: " ++ sd.style.value ∧ sd.style.enabled = true ∧ sd.style.value ≠ "") ∨
      (line = "動作演化: " ++ sd.pose.value ∧ sd.pose.enabled = true ∧ sd.pose.value ≠ "") ∨
      (line = "服裝/道具演化: " ++ sd.costume.value ∧ sd.costume.enabled = true ∧
        sd.costume.value ≠ "") ∨
      (line = "背景/氛圍演化: " ++ sd.mood.value ∧ sd.mood.enabled = true ∧
        sd.mood.value ≠ "")) ∧
    (enabledDimensions sd = [] → dimensionsText sd = "保持原有風格，僅進行品質提升") ∧
    enabledDimensions dimsB = ["風格演化: cyberpunk", "背景/氛圍演化: neon haze"] ∧
    dimensionsText dimsB = "風格演化: cyberpunk\n背景/氛圍演化: neon haze" := by
  refine ⟨?_, ?_, by decide, by decide⟩
  · intro line hline
    unfold enabledDimensions at hline
    rcases List.mem_append.mp hline with h3 | h4
    · rcases List.mem_append.mp h3 with h2 | h3'
      · rcases List.mem_append.mp h2 with h1 | h2'
        · exact Or.inl (mem_dimLine h1)
        · exact Or.inr (Or.inl (mem_dimLine h2'))
      · exact Or.inr (Or.inr (Or.inl (mem_dimLine h3')))
    · exact Or.inr (Or.inr (Or.inr (mem_dimLine h4)))
  · intro hempty
    unfold dimensionsText
    rw [hempty]
    simp

/-- Witness for C8 (amended) at the scenario-B style line. -/
theorem dimension_gate_amended_witness :
    ("風格演化: cyberpunk" = "風格演化: " ++ dimsB.style.value ∧ dimsB.style.enabled = true ∧
      dimsB.style.value ≠ "") ∨
    ("風格演化: cyberpunk" = "動作演化: " ++ dimsB.pose.value ∧ dimsB.pose.enabled = true ∧
      dimsB.pose.value ≠ "") ∨
    ("風格演化: cyberpunk" = "服裝/道具演化: " ++ dimsB.costume.value ∧
      dimsB.costume.enabled = true ∧ dimsB.costume.value ≠ "") ∨
    ("風格演化: cyberpunk" = "背景/氛圍演化: " ++ dimsB.mood.value ∧ dimsB.mood.enabled = true ∧
      dimsB.mood.value ≠ "") :=
  (dimension_gate_amended dimsB).1 "風格演化: cyberpunk" (by decide)

/-- Claim C1: when the external call of a stage rejects, the pipeline steps back
exactly one reviewable stage — a failed suggestion call returns the status to
`INSIGHTS_REVIEW`, a failed generation call to `CUSTOMIZATION`, and only a
failed first analysis call to `IDLE` — and the failure transition changes the
status alone, leaving entertainment insights (with the icon analysis inside),
the unified suggestion, the edited suggestion and the selected trends
untouched. -/
theorem failure_rollback (s : AnalysisState) (m₁ m₂ m₃ : String) (mode : Bool)
    (ins : EntertainmentInsights)
    (hIns : s.entertainmentInsights = some ins)
    (hShots : s.screenshots.length ≠ 0)
    (hDir : jsTrim s.editedSuggestion ≠ "")
    (hName : jsTrim s.evolutionInput.appName ≠ "")
    (hCat : s.evolutionInput.appCategory ≠ "")
    (hDesc : jsTrim s.evolutionInput.appDescription ≠ "") :
    startEvolutionSuggestions s (ApiOutcome.error m₁) =
      { s with status := AppState.INSIGHTS_REVIEW } ∧
    generateEvolution s (ApiOutcome.error m₂) = { s with status := AppState.CUSTOMIZATION } ∧
    startEntertainmentAnalysis s mode (ApiOutcome.error m₃) =
      { s with status := AppState.IDLE } ∧
    (startEvolutionSuggestions s (ApiOutcome.error m₁)).status ≠ AppState.IDLE ∧
    (generateEvolution s (ApiOutcome.error m₂)).status ≠ AppState.IDLE ∧
    (startEvolutionSuggestions s (ApiOutcome.error m₁)).entertainmentInsights = some ins ∧
    (startEvolutionSuggestions s (ApiOutcome.error m₁)).selectedTrends = s.selectedTrends ∧
    (generateEvolution s (ApiOutcome.error m₂)).entertainmentInsights = some ins ∧
    (generateEvolution s (ApiOutcome.error m₂)).unifiedSuggestion = s.unifiedSuggestion ∧
    (generateEvolution s (ApiOutcome.error m₂)).editedSuggestion = s.editedSuggestion ∧
    (generateEvolution s (ApiOutcome.error m₂)).selectedTrends = s.selectedTrends := by
  have e1 : startEvolutionSuggestions s (ApiOutcome.error m₁) =
      { s with status := AppState.INSIGHTS_REVIEW } := by
    unfold startEvolutionSuggestions
    rw [hIns]
  have e2 : generateEvolution s (ApiOutcome.error m₂) =
      { s with status := AppState.CUSTOMIZATION } := by
    unfold generateEvolution
    rw [if_neg hShots, if_neg hDir]
  have e3 : startEntertainmentAnalysis s mode (ApiOutcome.error m₃) =
      { s with status := AppState.IDLE } := by
    cases mode
    · unfold startEntertainmentAnalysis
      have hdesc2 : orDefault (some (jsTrim s.evolutionInput.appDescription))
          (jsTrim s.appInput) ≠ "" := by
        simp only [orDefault]
        rw [if_neg hDesc]
        exact hDesc
      rw [if_neg (by simp), if_pos (Nat.pos_of_ne_zero hShots), if_neg hName, if_neg hCat,
        if_neg hdesc2]
    · rfl
  refine ⟨e1, e2, e3, ?_, ?_, ?_, ?_, ?_, ?_, ?_, ?_⟩
  · rw [e1]
    exact fun hcontra => AppState.noConfusion hcontra
  · rw [e2]
    exact fun hcontra => AppState.noConfusion hcontra
  · rw [e1]
    exact hIns
  · rw [e1]
  · rw [e2]
    exact hIns
  · rw [e2]
  · rw [e2]
  · rw [e2]

/-- Witness for C1 at a concrete pipeline state sitting in customization with
all upstream outputs computed. -/
theorem failure_rollback_witness :
    startEvolutionSuggestions stateEx (ApiOutcome.error "network error") =
      { stateEx with status := AppState.INSIGHTS_REVIEW } :=
  (failure_rollback stateEx "network error" "boom" "offline" false insightsEx rfl (by decide)
    (by decide) (by decide) (by decide) (by decide)).1
